import Mathlib

/-!
# Verification of the `ba_local_config` configuration-loading library

Shallow embedding of `src/lib.rs` (crate `local_config`): path helpers
mirroring the Unix behaviour of Rust's `std::path`, the `Settings` type with
its constructor `Settings::new` and accessor `get_path`, and the global
once-initialized cell behind `global_config`.

Filesystem, environment and the external `config` parser are external
collaborators; they are modelled as explicit parameters (`FileSystem`, `Env`,
and the `Config` store) so the library code itself stays a pure function of
them.
-/

/-! ## Path helpers (Unix semantics of `std::path`) -/

/-- `Path::is_absolute` on Unix: the path begins with `/`. -/
def isAbsolute (p : String) : Bool :=
  match p.data with
  | [] => false
  | c :: _ => c == '/'

/-- Split a character list at every `/` (structural, so the kernel can
evaluate it on literals). -/
def splitSlashAux : List Char → List Char → List (List Char)
  | [], acc => [acc.reverse]
  | c :: cs, acc =>
    if c = '/' then acc.reverse :: splitSlashAux cs []
    else splitSlashAux cs (c :: acc)

/-- The non-empty `/`-separated pieces of a path (the `Normal`, `CurDir` and
`ParentDir` components, in order; repeated separators collapse). -/
def splitComponents (p : String) : List String :=
  ((splitSlashAux p.data []).map (fun l => String.mk l)).filter (fun s => s ≠ "")

/-- Rejoin path components with `/` separators. -/
def joinComponents : List String → String
  | [] => ""
  | [c] => c
  | c :: c2 :: cs => c ++ "/" ++ joinComponents (c2 :: cs)

/-- `Path::parent`: the path without its final component.
`none` for the root `/` and for the empty path; `some ""` for a
single-component relative path. -/
def pathParent (p : String) : Option String :=
  if (splitComponents p).isEmpty then none
  else if isAbsolute p then some ("/" ++ joinComponents (splitComponents p).dropLast)
  else some (joinComponents (splitComponents p).dropLast)

/-- `Path::file_name`: the final component of the path, skipping `.` and
trailing separators; `none` when the path is empty, is the root, or ends in
`..`. -/
def pathFileName (p : String) : Option String :=
  let comps := (splitComponents p).filter (fun s => s ≠ ".")
  match comps.getLast? with
  | some last => if last = ".." then none else some last
  | none => none

/-- Does the path end in a separator? -/
def endsWithSlash (p : String) : Bool :=
  match p.data.getLast? with
  | some '/' => true
  | _ => false

/-- `PathBuf::join`/`push` on Unix: an absolute argument replaces the base,
otherwise the argument is appended after a separator (none added if the base
already ends in one, and an empty base is replaced). -/
def pathJoin (base p : String) : String :=
  if isAbsolute p then p
  else if base = "" then p
  else if endsWithSlash base then base ++ p
  else base ++ "/" ++ p

/-! ## The external `config` crate -/

/-- The error type of the external `config` crate, restricted to the variants
this library produces or inspects: `NotFound` for a missing key, `Message` for
the ad-hoc error built in `get_path`, and a catch-all for the parser's other
failures (type mismatch, ...). -/
inductive ConfigError where
  | notFound (key : String)
  | message (msg : String)
  | other (msg : String)
deriving DecidableEq, Repr

/-- Decidable equality for `Result`-shaped values, so witnesses can be checked
by evaluation. -/
instance decEqExceptConfigError : DecidableEq (Except ConfigError String) := fun a b =>
  match a, b with
  | .ok x, .ok y =>
    if h : x = y then isTrue (by rw [h])
    else isFalse (by intro hEq; injection hEq; contradiction)
  | .ok _, .error _ => isFalse (by intro hEq; exact Except.noConfusion hEq)
  | .error _, .ok _ => isFalse (by intro hEq; exact Except.noConfusion hEq)
  | .error x, .error y =>
    if h : x = y then isTrue (by rw [h])
    else isFalse (by intro hEq; injection hEq; contradiction)

/-- The parsed key-value store (external collaborator): a black box exposing
`get_string(key) -> Result<String, ConfigError>`, which is the only accessor
this library's own code calls. -/
structure Config where
  getString : String → Except ConfigError String

/-! ## `Settings` and its accessors -/

/-- `pub struct Settings \x7b config_dir, config_filename, settings \x7d`. -/
structure Settings where
  config_dir : String
  config_filename : String
  settings : Config

/-- `Settings::config_dir` (trivial field accessor in the source). -/
def Settings.configDir (s : Settings) : String :=
  s.config_dir

/-- `Settings::get_path`: look the key up as a string (through `Deref` to the
store), reject the empty string with a `Message("empty value")` error, return
an absolute value unchanged, and join a relative value onto `config_dir`. -/
def Settings.get_path (s : Settings) (key : String) : Except ConfigError String :=
  match s.settings.getString key with
  | .error e => .error e
  | .ok value =>
    if value = "" then .error (.message "empty value")
    else if isAbsolute value then .ok value
    else .ok (pathJoin s.configDir value)

/-! ## The ambient world: environment and filesystem -/

/-- The process environment: `std::env::var` yields `some v` when the variable
is set (to `v`, possibly the empty string) and `none` when it is unset. -/
structure Env where
  var : String → Option String

/-- The filesystem and the external parser, as one collaborator:
`pathExists` is `Path::exists`, `canonicalize` is `Path::canonicalize`
(`none` on I/O error), and `parseFile` is
`Config::builder().add_source(File::with_name(path)).build()`
(`none` on parse failure). -/
structure FileSystem where
  pathExists : String → Bool
  canonicalize : String → Option String
  parseFile : String → Option Config

/-- The failure classes of `Settings::new`: the `anyhow` context error on the
environment variable, the `bail!` for a missing file, the `?`-propagated
canonicalization I/O error, and the `?`-propagated parser build error.
Each carries its message. -/
inductive NewError where
  | envVar (msg : String)
  | notFound (msg : String)
  | ioError (msg : String)
  | parseError (msg : String)
deriving DecidableEq, Repr

/-- The rendered message of a `Settings::new` failure (what `{e}` displays). -/
def NewError.render : NewError → String
  | .envVar m => m
  | .notFound m => m
  | .ioError m => m
  | .parseError m => m

/-- Outcome of `Settings::new`: `Ok`, a typed `Err`, or a panic
(the two `.unwrap()` calls on `parent()` and `file_name()`). -/
inductive NewResult where
  | ok (s : Settings)
  | error (e : NewError)
  | panicked (msg : String)

/-- The candidate path of `Settings::new`: the explicit argument verbatim, or
else the value of `DEFAULT_GLOBAL_CONFIG`; `none` when the variable is unset
(the `context(...)?` early return). -/
def resolvedPath (env : Env) (config_file : Option String) : Option String :=
  match config_file with
  | some f => some f
  | none => env.var "DEFAULT_GLOBAL_CONFIG"

/-- `Settings::new`: resolve the candidate path, check existence, then build
the struct — `config_dir` from `canonicalize()?.parent().unwrap()`,
`config_filename` from `file_name().unwrap()`, `settings` from `build()?` —
in the source's field-evaluation order. -/
def Settings.new (fs : FileSystem) (env : Env) (config_file : Option String) :
    NewResult :=
  match resolvedPath env config_file with
  | none =>
      .error (.envVar "Environment Variable `DEFAULT_GLOBAL_CONFIG` empty or not defined")
  | some path =>
    if fs.pathExists path = false then
      .error (.notFound ("config file not found: " ++ path))
    else
      match fs.canonicalize path with
      | none => .error (.ioError ("canonicalize failed: " ++ path))
      | some canon =>
        match pathParent canon with
        | none => .panicked "called `Option::unwrap()` on a `None` value"
        | some dir =>
          match pathFileName path with
          | none => .panicked "called `Option::unwrap()` on a `None` value"
          | some fname =>
            match fs.parseFile path with
            | none => .error (.parseError ("could not build config: " ++ path))
            | some cfg => .ok ⟨dir, fname, cfg⟩

/-! ## The global cell (`static CELL: OnceLock<Settings>` and `global_config`)

`OnceLock::get_or_init` is std's once-initialization primitive (an external
collaborator): its contract makes each call atomic — a filled cell is returned
untouched, an empty cell runs the initializer exactly once with late-comers
blocked.  `globalConfigCall` is one such atomic call with this library's
initializer (`Settings::new(None)`, panicking on failure); any interleaving of
concurrent callers is then a sequence of these atomic calls, which `runCalls`
iterates.  `constructCount` counts how many times the initializer ran, i.e.
how many times the file and the environment variable were read. -/

/-- What one caller of `global_config` observes: the settings, or process
termination by panic (the `unwrap_or_else(|e| panic!(...))` in the
initializer, or a panic escaping `Settings::new`). -/
inductive GlobalOutcome where
  | returned (s : Settings)
  | processAbort (msg : String)

/-- The state of the process-wide cell, plus the number of times the
initializer (hence the file/environment read) has run. -/
structure GlobalState where
  cell : Option Settings
  constructCount : Nat

/-- One atomic call to `global_config`: return the cached value if the cell is
filled, otherwise run `Settings::new(None)` and either fill the cell or abort
the process with `load global config fail: {e}`. -/
def globalConfigCall (fs : FileSystem) (env : Env) (st : GlobalState) :
    GlobalState × GlobalOutcome :=
  match st.cell with
  | some s => (st, .returned s)
  | none =>
    match Settings.new fs env none with
    | .ok s => (⟨some s, st.constructCount + 1⟩, .returned s)
    | .error e =>
        (⟨none, st.constructCount + 1⟩,
          .processAbort ("load global config fail: " ++ e.render))
    | .panicked m => (⟨none, st.constructCount + 1⟩, .processAbort m)

/-- `n` successive atomic calls to `global_config` (any interleaving of `n`
concurrent callers, by the atomicity of `OnceLock::get_or_init`), returning
the final state and each caller's outcome in order. -/
def runCalls (fs : FileSystem) (env : Env) :
    Nat → GlobalState → GlobalState × List GlobalOutcome
  | 0, st => (st, [])
  | n + 1, st =>
    let r := globalConfigCall fs env st
    let rest := runCalls fs env n r.1
    (rest.1, r.2 :: rest.2)

/-! ## Concrete fixtures (used by witnesses and counterexamples) -/

/-- A concrete parsed store, as in `examples/test_global_settings.toml`. -/
def cfgDemo : Config where
  getString := fun key =>
    if key = "section.name" then .ok "hello"
    else if key = "delist.delist_db_file" then .ok "./db/delist.db"
    else if key = "abs.file" then .ok "/etc/data/file.db"
    else if key = "dot.key" then .ok "."
    else if key = "dotslash.key" then .ok "./"
    else if key = "empty.key" then .ok ""
    else .error (.notFound key)

/-- A concrete filesystem holding one parseable config file at the relative
path `examples/test.toml`, whose canonical location is
`/repo/examples/test.toml`. -/
def fsDemo : FileSystem where
  pathExists := fun p => p == "examples/test.toml"
  canonicalize := fun p =>
    if p = "examples/test.toml" then some "/repo/examples/test.toml" else none
  parseFile := fun p => if p = "examples/test.toml" then some cfgDemo else none

/-- An environment with `DEFAULT_GLOBAL_CONFIG` unset. -/
def envUnset : Env where
  var := fun _ => none

/-- An environment with `DEFAULT_GLOBAL_CONFIG` set to the empty string. -/
def envEmptyVar : Env where
  var := fun k => if k = "DEFAULT_GLOBAL_CONFIG" then some "" else none

/-- An environment with `DEFAULT_GLOBAL_CONFIG` pointing at the demo file. -/
def envDemo : Env where
  var := fun k => if k = "DEFAULT_GLOBAL_CONFIG" then some "examples/test.toml" else none

/-- The `Settings` value the demo fixtures construct. -/
def settingsDemo : Settings :=
  ⟨"/repo/examples", "test.toml", cfgDemo⟩

/-- A filesystem on which the root directory `/` exists and canonicalizes to
itself (true of every real filesystem), with no parseable files. -/
def fsRootOnly : FileSystem where
  pathExists := fun p => p == "/"
  canonicalize := fun p => if p = "/" then some "/" else none
  parseFile := fun _ => none

/-! ## Theorems -/

/-- C1: for a path to an existing, parseable configuration file (one the
filesystem canonicalizes, whose canonical form is not the root, and which has
a final component), `Settings::new(Some(path))` returns `Ok`, with
`config_dir` the parent of the canonicalized path and `config_filename` the
final component of the original, non-canonicalized path. -/
theorem settings_new_ok (fs : FileSystem) (env : Env)
    (p canon dir fname : String) (cfg : Config)
    (hex : fs.pathExists p = true)
    (hcanon : fs.canonicalize p = some canon)
    (hdir : pathParent canon = some dir)
    (hfn : pathFileName p = some fname)
    (hparse : fs.parseFile p = some cfg) :
    Settings.new fs env (some p) = .ok ⟨dir, fname, cfg⟩ := by
  unfold Settings.new resolvedPath
  simp [hex, hcanon, hdir, hfn, hparse]

/-- Witness for C1: the demo filesystem's file `examples/test.toml`
constructs successfully, with `config_dir = /repo/examples` (the parent of
the canonical path) and `config_filename = test.toml`. -/
theorem settings_new_ok_witness :
    Settings.new fsDemo envUnset (some "examples/test.toml") =
      .ok ⟨"/repo/examples", "test.toml", cfgDemo⟩ :=
  settings_new_ok fsDemo envUnset "examples/test.toml" "/repo/examples/test.toml"
    "/repo/examples" "test.toml" cfgDemo (by decide) (by decide) (by decide)
    (by decide) (by simp [fsDemo])

/-- C2: when the stored string value of `key` is non-empty, `get_path`
returns the value unchanged if it is an absolute path and
`config_dir.join(value)` if it is relative — the resolution base is the
`Settings`' own `config_dir`, which is the only path that enters the
computation. -/
theorem get_path_resolves (s : Settings) (key v : String)
    (hget : s.settings.getString key = .ok v) (hne : v ≠ "") :
    s.get_path key =
      (if isAbsolute v then .ok v else .ok (pathJoin s.config_dir v)) := by
  unfold Settings.get_path
  rw [hget]
  simp [hne, Settings.configDir]

/-- Witness for C2: on the demo settings (config dir `/repo/examples`), the
absolute value `/etc/data/file.db` is returned unchanged and the relative
value `./db/delist.db` is joined onto the config dir. -/
theorem get_path_resolves_witness :
    settingsDemo.get_path "abs.file" = .ok "/etc/data/file.db" ∧
    settingsDemo.get_path "delist.delist_db_file" =
      .ok "/repo/examples/./db/delist.db" := by
  constructor
  · exact (get_path_resolves settingsDemo "abs.file" "/etc/data/file.db"
      (by decide) (by decide)).trans (by decide)
  · exact (get_path_resolves settingsDemo "delist.delist_db_file"
      "./db/delist.db" (by decide) (by decide)).trans (by decide)

/-- C3: `get_path` fails with the `Message "empty value"` error when the
stored value is `""`; every other stored value — including `"."` and `"./"` —
yields `Ok`; and an error of the underlying `get_string` lookup (in
particular the missing-key `NotFound` error, a different constructor from
`Message`) is propagated unchanged. -/
theorem get_path_empty_vs_missing (s : Settings) (key : String) :
    (s.settings.getString key = .ok "" →
      s.get_path key = .error (.message "empty value")) ∧
    (∀ v, s.settings.getString key = .ok v → v ≠ "" →
      ∃ q, s.get_path key = .ok q) ∧
    (∀ e, s.settings.getString key = .error e → s.get_path key = .error e) := by
  refine ⟨fun h => ?_, fun v hv hne => ?_, fun e he => ?_⟩
  · unfold Settings.get_path
    rw [h]
    simp
  · unfold Settings.get_path
    rw [hv]
    simp only [if_neg hne]
    by_cases habs : isAbsolute v = true
    · exact ⟨v, by simp [habs]⟩
    · exact ⟨pathJoin s.configDir v, by simp [habs]⟩
  · unfold Settings.get_path
    rw [he]

/-- Witness for C3: on the demo settings, `empty.key` (stored `""`) yields the
empty-value error, `dot.key` (stored `"."`) and `dotslash.key` (stored `"./"`)
are accepted, and the missing key `no.such.key` yields the propagated
`NotFound` error. -/
theorem get_path_empty_vs_missing_witness :
    settingsDemo.get_path "empty.key" = .error (.message "empty value") ∧
    (∃ q, settingsDemo.get_path "dot.key" = .ok q) ∧
    (∃ q, settingsDemo.get_path "dotslash.key" = .ok q) ∧
    settingsDemo.get_path "no.such.key" = .error (.notFound "no.such.key") := by
  refine ⟨?_, ?_, ?_, ?_⟩
  · exact (get_path_empty_vs_missing settingsDemo "empty.key").1 (by decide)
  · exact (get_path_empty_vs_missing settingsDemo "dot.key").2.1 "." (by decide) (by decide)
  · exact (get_path_empty_vs_missing settingsDemo "dotslash.key").2.1 "./"
      (by decide) (by decide)
  · exact (get_path_empty_vs_missing settingsDemo "no.such.key").2.2
      (.notFound "no.such.key") (by decide)

/-- C4: for any path the filesystem reports as nonexistent,
`Settings::new(Some(path))` fails with the `NotFound`-class error whose
message is `config file not found: ` followed by the attempted path, before
the parser is consulted (the conclusion holds for every `parseFile`). -/
theorem settings_new_not_found (fs : FileSystem) (env : Env) (p : String)
    (h : fs.pathExists p = false) :
    Settings.new fs env (some p) =
      .error (.notFound ("config file not found: " ++ p)) := by
  unfold Settings.new resolvedPath
  simp [h]

/-- Witness for C4: `missing.toml` does not exist on the demo filesystem and
construction fails with the message naming it. -/
theorem settings_new_not_found_witness :
    Settings.new fsDemo envUnset (some "missing.toml") =
      .error (.notFound "config file not found: missing.toml") :=
  settings_new_not_found fsDemo envUnset "missing.toml" (by decide)

/-- Counterexample to C5: with `DEFAULT_GLOBAL_CONFIG` set to the empty
string, `env::var` succeeds with `""`, the empty candidate path fails the
existence check, and construction fails with the `NotFound`-class
file-not-found error — not with an Environment-class error naming the
variable. -/
theorem settings_new_empty_var_not_env_error :
    Settings.new fsDemo envEmptyVar none =
      .error (.notFound "config file not found: ") := by rfl

/-- C5 as amended: with no explicit path, construction fails with the
Environment-class error naming `DEFAULT_GLOBAL_CONFIG` exactly when the
variable is unset; when the variable is set to the empty string the empty
path (which exists on no filesystem) fails the existence check instead,
giving the `NotFound`-class file-not-found error. -/
theorem settings_new_env_unset_or_empty (fs : FileSystem) (env : Env) :
    (env.var "DEFAULT_GLOBAL_CONFIG" = none →
      Settings.new fs env none =
        .error (.envVar "Environment Variable `DEFAULT_GLOBAL_CONFIG` empty or not defined")) ∧
    (env.var "DEFAULT_GLOBAL_CONFIG" = some "" → fs.pathExists "" = false →
      Settings.new fs env none =
        .error (.notFound ("config file not found: " ++ ""))) := by
  constructor
  · intro h
    unfold Settings.new resolvedPath
    rw [h]
  · intro h hne
    unfold Settings.new resolvedPath
    rw [h]
    simp [hne]

/-- Witness for the amended C5: the unset environment yields the
Environment-class error; the empty-string environment yields the
file-not-found error. -/
theorem settings_new_env_unset_or_empty_witness :
    Settings.new fsDemo envUnset none =
      .error (.envVar "Environment Variable `DEFAULT_GLOBAL_CONFIG` empty or not defined") ∧
    Settings.new fsDemo envEmptyVar none =
      .error (.notFound ("config file not found: " ++ "")) :=
  ⟨(settings_new_env_unset_or_empty fsDemo envUnset).1 (by decide),
   (settings_new_env_unset_or_empty fsDemo envEmptyVar).2 (by decide) (by decide)⟩

/-- Counterexample to C6: `Settings::new(Some("/"))` on a filesystem where the
root exists does not return an `Err` — `canonicalize()` yields `/`, whose
`parent()` is `None`, and the `.unwrap()` panics. -/
theorem settings_new_root_panics :
    Settings.new fsRootOnly envUnset (some "/") =
      .panicked "called `Option::unwrap()` on a `None` value" := by rfl

/-- C6 as amended: every failure of `Settings::new` is returned as a typed
`Err` — no panic — provided the resolved candidate path does not canonicalize
to the filesystem root and has a final path component; outside that proviso
(e.g. the path `/`, or a path ending in `..`) the two `.unwrap()` calls can
panic. -/
theorem settings_new_no_panic (fs : FileSystem) (env : Env) (cf : Option String)
    (hpar : ∀ p c, resolvedPath env cf = some p → fs.canonicalize p = some c →
      pathParent c ≠ none)
    (hfn : ∀ p, resolvedPath env cf = some p → pathFileName p ≠ none) :
    ∀ m, Settings.new fs env cf ≠ .panicked m := by
  intro m h
  unfold Settings.new at h
  split at h
  · exact NewResult.noConfusion h
  next p hrp =>
    split at h
    · exact NewResult.noConfusion h
    · split at h
      · exact NewResult.noConfusion h
      next c hc =>
        split at h
        · next hp => exact hpar p c hrp hc hp
        next d hp =>
          split at h
          · next hf => exact hfn p hrp hf
          next f hf =>
            split at h
            · exact NewResult.noConfusion h
            · exact NewResult.noConfusion h

/-- Witness for the amended C6: the demo file's path satisfies the proviso, so
no call on it panics. -/
theorem settings_new_no_panic_witness :
    Settings.new fsDemo envUnset (some "examples/test.toml") ≠
      .panicked "called `Option::unwrap()` on a `None` value" :=
  settings_new_no_panic fsDemo envUnset (some "examples/test.toml")
    (fun p c hp hc => by
      simp only [resolvedPath, Option.some.injEq] at hp
      subst hp
      simp [fsDemo] at hc
      subst hc
      decide)
    (fun p hp => by
      simp only [resolvedPath, Option.some.injEq] at hp
      subst hp
      decide)
    "called `Option::unwrap()` on a `None` value"

/-- Calls made against an already-filled cell neither run the initializer nor
change the state: every caller gets the cached instance back. -/
theorem runCalls_filled (fs : FileSystem) (env : Env) (s : Settings) (c : Nat) :
    ∀ n, runCalls fs env n ⟨some s, c⟩ =
      (⟨some s, c⟩, List.replicate n (.returned s)) := by
  intro n
  induction n with
  | zero => rfl
  | succ k ih =>
    simp only [runCalls, globalConfigCall, ih, List.replicate]

/-- C7: when the initializer `Settings::new(None)` succeeds, any number `n ≥ 1`
of atomic `global_config` calls starting from the empty cell (any interleaving
of `n` concurrent first-callers, by `OnceLock::get_or_init`'s atomic contract)
runs the initializer — hence the file/environment read — exactly once, and
every caller receives the identical `Settings` instance. -/
theorem global_config_once (fs : FileSystem) (env : Env) (s : Settings) (n : Nat)
    (hok : Settings.new fs env none = .ok s) (hn : 1 ≤ n) :
    (runCalls fs env n ⟨none, 0⟩).1 = ⟨some s, 1⟩ ∧
    (runCalls fs env n ⟨none, 0⟩).2 = List.replicate n (.returned s) := by
  obtain ⟨k, rfl⟩ : ∃ k, n = k + 1 := ⟨n - 1, by omega⟩
  simp [runCalls, globalConfigCall, hok, runCalls_filled, List.replicate]

/-- Witness for C7: three callers on the demo environment (variable pointing
at the demo file) all get the demo settings, with one construction. -/
theorem global_config_once_witness :
    (runCalls fsDemo envDemo 3 ⟨none, 0⟩).1 = ⟨some settingsDemo, 1⟩ ∧
    (runCalls fsDemo envDemo 3 ⟨none, 0⟩).2 =
      List.replicate 3 (.returned settingsDemo) :=
  global_config_once fsDemo envDemo settingsDemo 3 (by rfl) (by omega)

/-- C8: when the initializer `Settings::new(None)` fails, the first
`global_config` call does not return a recoverable value: it aborts the
process with the panic message `load global config fail: ` followed by the
construction error. -/
theorem global_config_first_failure_aborts (fs : FileSystem) (env : Env)
    (e : NewError) (herr : Settings.new fs env none = .error e) :
    (globalConfigCall fs env ⟨none, 0⟩).2 =
      .processAbort ("load global config fail: " ++ e.render) := by
  simp only [globalConfigCall, herr]

/-- Witness for C8: with `DEFAULT_GLOBAL_CONFIG` unset, the first call aborts
with the environment error's message. -/
theorem global_config_first_failure_aborts_witness :
    (globalConfigCall fsDemo envUnset ⟨none, 0⟩).2 =
      .processAbort ("load global config fail: " ++
        (NewError.envVar
          "Environment Variable `DEFAULT_GLOBAL_CONFIG` empty or not defined").render) :=
  global_config_first_failure_aborts fsDemo envUnset
    (.envVar "Environment Variable `DEFAULT_GLOBAL_CONFIG` empty or not defined")
    (by rfl)

/-- A path starting with `/` appended to anything still starts with `/`. -/
theorem isAbsolute_append (base x : String) (hb : isAbsolute base = true) :
    isAbsolute (base ++ x) = true := by
  unfold isAbsolute at hb ⊢
  rw [String.data_append]
  cases hd : base.data with
  | nil => rw [hd] at hb; exact Bool.noConfusion hb
  | cons ch t =>
    rw [hd] at hb
    rw [List.cons_append]
    exact hb

/-- `/` prepended to anything is absolute. -/
theorem isAbsolute_slash_append (s : String) : isAbsolute ("/" ++ s) = true :=
  isAbsolute_append "/" s (by decide)

/-- `Path::parent` of an absolute path is absolute. -/
theorem pathParent_absolute (c d : String) (habs : isAbsolute c = true)
    (h : pathParent c = some d) : isAbsolute d = true := by
  unfold pathParent at h
  by_cases he : (splitComponents c).isEmpty = true
  · rw [if_pos he] at h
    exact Option.noConfusion h
  · rw [if_neg he, if_pos habs] at h
    injection h with h2
    rw [← h2]
    exact isAbsolute_slash_append _

/-- Joining anything onto an absolute base yields an absolute path. -/
theorem pathJoin_absolute (base v : String) (hb : isAbsolute base = true) :
    isAbsolute (pathJoin base v) = true := by
  unfold pathJoin
  by_cases hv : isAbsolute v = true
  · simp [hv]
  · have hbne : base ≠ "" := by
      intro hbe
      rw [hbe] at hb
      exact absurd hb (by decide)
    rw [if_neg hv, if_neg hbne]
    by_cases hs : endsWithSlash base = true
    · rw [if_pos hs]
      exact isAbsolute_append base v hb
    · rw [if_neg hs, String.append_assoc]
      exact isAbsolute_append base ("/" ++ v) hb

/-- C9: on any filesystem whose `canonicalize` returns absolute paths (as the
real one does), every `Settings` built by `Settings::new` has an absolute
`config_dir`, and consequently every `Ok` result of `get_path` is an absolute
path — either the stored absolute value itself, or the join of the absolute
`config_dir` with the relative value. -/
theorem config_dir_absolute (fs : FileSystem) (env : Env) (cf : Option String)
    (s : Settings)
    (hcanon : ∀ p c, fs.canonicalize p = some c → isAbsolute c = true)
    (hok : Settings.new fs env cf = .ok s) :
    isAbsolute s.config_dir = true ∧
    (∀ key q, s.get_path key = .ok q → isAbsolute q = true) := by
  have hdir : isAbsolute s.config_dir = true := by
    unfold Settings.new at hok
    split at hok
    · exact NewResult.noConfusion hok
    next p hrp =>
      split at hok
      · exact NewResult.noConfusion hok
      · split at hok
        · exact NewResult.noConfusion hok
        next c hc =>
          split at hok
          · exact NewResult.noConfusion hok
          next d hp =>
            split at hok
            · exact NewResult.noConfusion hok
            next f hf =>
              split at hok
              · exact NewResult.noConfusion hok
              next cfg hcfg =>
                injection hok with h2
                rw [← h2]
                exact pathParent_absolute c d (hcanon p c hc) hp
  refine ⟨hdir, fun key q hq => ?_⟩
  unfold Settings.get_path at hq
  split at hq
  · exact Except.noConfusion hq
  next v hv =>
    split at hq
    · exact Except.noConfusion hq
    · split at hq
      next habs =>
        injection hq with h3
        rw [← h3]
        exact habs
      next habs =>
        injection hq with h3
        rw [← h3]
        exact pathJoin_absolute s.configDir v hdir

/-- Witness for C9: the demo settings have the absolute config dir
`/repo/examples`, and the `Ok` result for the relative stored value
`./db/delist.db` is absolute. -/
theorem config_dir_absolute_witness :
    isAbsolute settingsDemo.config_dir = true ∧
    isAbsolute "/repo/examples/./db/delist.db" = true := by
  have h := config_dir_absolute fsDemo envUnset (some "examples/test.toml")
    settingsDemo
    (fun p c hc => by
      simp [fsDemo] at hc
      rw [← hc.2]
      decide)
    (by rfl)
  exact ⟨h.1, h.2 "delist.delist_db_file" "/repo/examples/./db/delist.db" (by decide)⟩

/-- `Settings::get_path` with the ambient world (current working directory,
filesystem, environment) passed explicitly.  Every operation in the source's
body — the in-memory store lookup `get_string`, `String::is_empty`,
`Path::is_absolute` (a pure string test on Unix) and `Path::join` — performs
no filesystem, environment or CWD access, so the body never consults these
parameters. -/
def Settings.get_pathIn (_cwd : String) (_fs : FileSystem) (_env : Env)
    (s : Settings) (key : String) : Except ConfigError String :=
  match s.settings.getString key with
  | .error e => .error e
  | .ok value =>
    if value = "" then .error (.message "empty value")
    else if isAbsolute value then .ok value
    else .ok (pathJoin s.configDir value)

/-- C10: `get_path` is a pure function of the `Settings` value and the key:
run in any ambient world it coincides with the world-free `get_path`, so two
calls on the same `Settings` and key return equal results regardless of the
current working directory or filesystem state at call time. -/
theorem get_path_pure (s : Settings) (key cwd1 cwd2 : String)
    (fs1 fs2 : FileSystem) (env1 env2 : Env) :
    Settings.get_pathIn cwd1 fs1 env1 s key = s.get_path key ∧
    Settings.get_pathIn cwd1 fs1 env1 s key =
      Settings.get_pathIn cwd2 fs2 env2 s key :=
  ⟨rfl, rfl⟩
